import Mathlib

/-!
# Verification of the cosmic-connect core protocol modules

Shallow embedding of the Rust sources of `cosmic-connect-desktop-app`:
the mutual-TLS certificate verifiers and length-framed transport of
`kdeconnect-protocol`, the connection manager's first-frame handling, and
the pairing handler and discovery service of `cosmic-ext-connect-protocol`.
Pure data is translated directly; stateful code (`&mut self`, the
certificate directory) is threaded as explicit state; fallible operations
return `Except`.
-/

set_option autoImplicit false

namespace CosmicConnect

/-- Byte strings (DER certificates, wire frames) as lists of naturals. -/
abbrev Bytes := List Nat

/-- Embeds `ProtocolError` from `error.rs` (both protocol crates).  Error payloads
that Rust carries as wrapped source errors are modelled as their display
strings. -/
inductive ProtocolError where
  | io (msg : String)
  | json (msg : String)
  | tls (msg : String)
  | certificate (msg : String)
  | deviceNotFound (id : String)
  | notPaired
  | invalidPacket (msg : String)
  | plugin (msg : String)
  | certificateValidation (msg : String)
  deriving DecidableEq, Repr

/-- Embeds `rustls::CertificateError` (only the variant this code constructs). -/
inductive CertificateError where
  | unknownIssuer
  deriving DecidableEq, Repr

/-- Embeds `rustls::Error` (only the variant this code constructs). -/
inductive RustlsError where
  | invalidCertificate (e : CertificateError)
  deriving DecidableEq, Repr

/-- Is an `Except` result an error? -/
def isErr {ε α : Type} : Except ε α → Bool
  | .error _ => true
  | .ok _ => false

/-- Is an `Except` result an `InvalidPacket` protocol error? -/
def isInvalidPacketErr {α : Type} : Except ProtocolError α → Bool
  | .error (.invalidPacket _) => true
  | _ => false

@[simp] theorem isErr_error {ε α : Type} (e : ε) : isErr (Except.error e : Except ε α) = true := rfl

@[simp] theorem isErr_ok {ε α : Type} (a : α) : isErr (Except.ok a : Except ε α) = false := rfl

/-! ## Association-list maps

`HashMap<String, V>` state is embedded as association lists with
insert-replaces-key semantics; the claims only inspect maps through
`assocGet` / `containsKey`, for which this is an exact model. -/

/-- Remove every binding of the key (HashMap `remove`). -/
def assocRemove {β : Type} (k : String) : List (String × β) → List (String × β)
  | [] => []
  | kv :: tl => if kv.1 = k then assocRemove k tl else kv :: assocRemove k tl

/-- Insert, replacing any existing binding of the key (HashMap `insert`). -/
def assocInsert {β : Type} (k : String) (v : β) (m : List (String × β)) : List (String × β) :=
  (k, v) :: assocRemove k m

/-- Look up a key (HashMap `get`). -/
def assocGet {β : Type} (k : String) : List (String × β) → Option β
  | [] => none
  | kv :: tl => if kv.1 = k then some kv.2 else assocGet k tl

/-- Key membership (HashMap `contains_key`). -/
def containsKey {β : Type} (k : String) : List (String × β) → Bool
  | [] => false
  | kv :: tl => kv.1 == k || containsKey k tl

theorem containsKey_eq_isSome_assocGet {β : Type} (k : String) (m : List (String × β)) :
    containsKey k m = (assocGet k m).isSome := by
  induction m with
  | nil => rfl
  | cons kv tl ih =>
    by_cases h : kv.1 = k <;> simp [containsKey, assocGet, h, ih]

theorem assocGet_assocRemove {β : Type} (k d : String) (m : List (String × β)) :
    assocGet d (assocRemove k m) = if k = d then none else assocGet d m := by
  induction m with
  | nil => by_cases h : k = d <;> simp [assocRemove, assocGet, h]
  | cons kv tl ih =>
    by_cases hkd : k = d <;> by_cases h : kv.1 = k <;> by_cases h2 : kv.1 = d <;>
      simp_all [assocRemove, assocGet]

theorem containsKey_assocRemove {β : Type} (k d : String) (m : List (String × β)) :
    containsKey d (assocRemove k m) = (decide (k ≠ d) && containsKey d m) := by
  induction m with
  | nil => by_cases h : k = d <;> simp [assocRemove, containsKey, h]
  | cons kv tl ih =>
    by_cases hkd : k = d <;> by_cases h : kv.1 = k <;> by_cases h2 : kv.1 = d <;>
      simp_all [assocRemove, containsKey]

theorem assocGet_assocInsert {β : Type} (k d : String) (v : β) (m : List (String × β)) :
    assocGet d (assocInsert k v m) = if k = d then some v else assocGet d m := by
  by_cases h : k = d <;> simp [assocInsert, assocGet, h, assocGet_assocRemove]

theorem containsKey_assocInsert {β : Type} (k d : String) (v : β) (m : List (String × β)) :
    containsKey d (assocInsert k v m) = (k == d || containsKey d m) := by
  by_cases h : k = d <;>
    simp [assocInsert, containsKey, h, containsKey_assocRemove]

/-! ## C1: mutual-TLS certificate verifiers (`transport/tls_config.rs`) -/

/-- Embeds `KdeConnectServerCertVerifier`: the `HashSet<Vec<u8>>` of trusted DER
certificates is embedded as the list it was collected from; `contains` on
the set is membership in the list. -/
structure KdeConnectServerCertVerifier where
  trusted_certs : List Bytes

/-- Embeds `KdeConnectClientCertVerifier`: the single pinned peer certificate. -/
structure KdeConnectClientCertVerifier where
  expected_cert : Bytes

/-- Embeds `KdeConnectServerCertVerifier::verify_client_cert`: accept iff the
end-entity DER bytes are in the trusted set. -/
def verify_client_cert (v : KdeConnectServerCertVerifier) (end_entity : Bytes) :
    Except RustlsError Unit :=
  if end_entity ∈ v.trusted_certs then
    .ok ()
  else
    .error (.invalidCertificate .unknownIssuer)

/-- Embeds `KdeConnectClientCertVerifier::verify_server_cert`: accept iff the
end-entity DER bytes equal the pinned certificate. -/
def verify_server_cert (v : KdeConnectClientCertVerifier) (end_entity : Bytes) :
    Except RustlsError Unit :=
  if end_entity = v.expected_cert then
    .ok ()
  else
    .error (.invalidCertificate .unknownIssuer)

/-! ## C4: length-framed transport (`transport/tls.rs`) -/

/-- Embeds `MAX_PACKET_SIZE`: 10 MiB. -/
def MAX_PACKET_SIZE : Nat := 10 * 1024 * 1024

/-- Embeds `u32::to_be_bytes` (the sender only converts lengths that were already
checked to be at most `MAX_PACKET_SIZE < 2^32`). -/
def u32_be_bytes (n : Nat) : Bytes :=
  [n / 16777216 % 256, n / 65536 % 256, n / 256 % 256, n % 256]

/-- Embeds `u32::from_be_bytes` on four received bytes. -/
def u32_from_be (b0 b1 b2 b3 : Nat) : Nat :=
  ((b0 * 256 + b1) * 256 + b2) * 256 + b3

/-- Embeds `TlsConnection::send_packet`, at frame level: given the already-encoded
packet bytes and the stream written so far, returns the call's result and
the stream afterwards.  Oversized packets are rejected before any write. -/
def send_packet (bytes : Bytes) (stream : Bytes) : Except ProtocolError Unit × Bytes :=
  if bytes.length > MAX_PACKET_SIZE then
    (.error (.invalidPacket ("Packet too large: " ++ toString bytes.length ++
      " bytes (max " ++ toString MAX_PACKET_SIZE ++ ")")), stream)
  else
    (.ok (), stream ++ u32_be_bytes bytes.length ++ bytes)

/-- Embeds `TlsConnection::receive_packet`, at frame level: reads the 4-byte
big-endian length prefix, rejects lengths over `MAX_PACKET_SIZE`, then
reads that many payload bytes.  Returns the frame payload and the rest of
the input; JSON decoding of the payload happens downstream and is not part
of this claim.  Missing bytes are the read-timeout I/O error. -/
def receive_packet (input : Bytes) : Except ProtocolError (Bytes × Bytes) :=
  match input with
  | b0 :: b1 :: b2 :: b3 :: rest =>
    let len := u32_from_be b0 b1 b2 b3
    if len > MAX_PACKET_SIZE then
      .error (.invalidPacket ("Packet too large: " ++ toString len ++
        " bytes (max " ++ toString MAX_PACKET_SIZE ++ ")"))
    else if rest.length < len then
      .error (.io "Read timeout")
    else
      .ok (rest.take len, rest.drop len)
  | _ => .error (.io "Read timeout")

/-! ## Packets

The packet codec module (`Packet`, its JSON body, `is_type`,
`get_body_field`) is declared in the protocol crates' `lib.rs` but its
source file is not under `src/`; only its callers are.  The envelope shape
is modelled from the spec (§3 **Packet**): a `packet_type` string and a
free-form JSON object body, of which the embedded modules only read
string/bool fields. -/

/-- A JSON body field value (only the shapes the embedded modules read). -/
inductive JsonValue where
  | str (s : String)
  | boolean (b : Bool)
  | num (n : Nat)
  | null
  deriving DecidableEq, Repr

/-- Modelled from the spec: the wire envelope of §3 — `packet_type` plus a
JSON object body (field-name/value pairs). -/
structure Packet where
  packet_type : String
  body : List (String × JsonValue)
  deriving DecidableEq, Repr

/-- Embeds `Packet::get_body_field` at a JSON value. -/
def Packet.get_body_field (p : Packet) (k : String) : Option JsonValue :=
  assocGet k p.body

/-- Embeds `Packet::get_body_field::<bool>`. -/
def Packet.get_body_bool (p : Packet) (k : String) : Option Bool :=
  match p.get_body_field k with
  | some (.boolean b) => some b
  | _ => none

/-- Embeds `body.get(k).and_then(|v| v.as_str())`. -/
def Packet.get_body_str (p : Packet) (k : String) : Option String :=
  match p.get_body_field k with
  | some (.str s) => some s
  | _ => none

/-- Modelled from the spec: `Packet::is_type` is not under `src/`.  Spec
§4.4/§6 treat `kdeconnect.*` and `cconnect.*` as two spellings of the same
packet types (the discovery handler's single `is_type("cconnect.identity")`
test accepts both identity spellings), so `is_type` compares packet types
modulo that prefix aliasing, tabulated for the packet types the embedded
modules test. -/
def typeAlias (t : String) : String :=
  if t == "kdeconnect.identity" then "cconnect.identity"
  else if t == "kdeconnect.pair" then "cconnect.pair"
  else t

/-- Modelled from the spec: see `typeAlias`. -/
def Packet.is_type (p : Packet) (t : String) : Bool :=
  typeAlias p.packet_type == typeAlias t

/-! ## Pairing packets (`pairing/handler.rs`) -/

/-- Embeds `PairingStatus`. -/
inductive PairingStatus where
  | Unpaired
  | Requested
  | RequestedByPeer
  | Paired
  deriving DecidableEq, Repr

/-- Embeds `PairingPacket`: the parsed `pair` flag. -/
structure PairingPacket where
  pair : Bool
  deriving DecidableEq, Repr

/-- Embeds `PairingPacket::request` / `PairingPacket::accept`: a `cconnect.pair`
packet with `pair: true` and the current unix-seconds timestamp. -/
def PairingPacket.accept (now : Nat) : Packet :=
  ⟨"cconnect.pair", [("pair", .boolean true), ("timestamp", .num now)]⟩

/-- Embeds `PairingPacket::reject` / `PairingPacket::unpair`: `pair: false`. -/
def PairingPacket.reject : Packet :=
  ⟨"cconnect.pair", [("pair", .boolean false)]⟩

/-- Embeds `PairingPacket::from_packet`. -/
def PairingPacket.from_packet (p : Packet) : Except ProtocolError PairingPacket :=
  if p.is_type "cconnect.pair" then
    match p.get_body_bool "pair" with
    | none => .error (.invalidPacket "Missing pair field")
    | some b => .ok ⟨b⟩
  else
    .error (.invalidPacket "Not a pairing packet")

/-! ## Filesystem model

The pairing handler does synchronous file I/O (`fs::write`,
`fs::remove_file`) in the certificate directory.  Files are an
association list from path to contents; whether a particular write or
remove fails is part of the state, so storage-failure claims quantify over
it.  File contents are kept at the granularity the claims inspect: a PEM
file is its (tag, DER contents) pair — `pem::encode` then `pem::parse`
round-trips exactly these — and anything else is raw bytes, on which
`pem::parse` fails. -/

/-- Contents of a file in the certificate directory. -/
inductive FileData where
  | pemFile (tag : String) (contents : Bytes)
  | rawFile (data : Bytes)
  deriving DecidableEq, Repr

/-- The certificate directory plus the environment's failure behaviour. -/
structure FileSystem where
  files : List (String × FileData)
  writeFails : String → Bool
  removeFails : String → Bool

/-- Embeds `fs::write`. -/
def FileSystem.write (fs : FileSystem) (path : String) (data : FileData) :
    Except ProtocolError FileSystem :=
  if fs.writeFails path then .error (.io "write failed")
  else .ok { fs with files := assocInsert path data fs.files }

/-- Embeds `Path::exists`. -/
def FileSystem.fileExists (fs : FileSystem) (path : String) : Bool :=
  containsKey path fs.files

/-- Embeds `fs::remove_file`. -/
def FileSystem.removeFile (fs : FileSystem) (path : String) :
    Except ProtocolError FileSystem :=
  if fs.removeFails path then .error (.io "remove failed")
  else .ok { fs with files := assocRemove path fs.files }

/-- Embeds `pem::parse` on our file-content model. -/
def pemParse : FileData → Except ProtocolError (String × Bytes)
  | .pemFile tag contents => .ok (tag, contents)
  | .rawFile _ => .error (.invalidPacket "malformed PEM")

/-! ## Pairing handler (`pairing/handler.rs`) -/

/-- Embeds `PairingHandler`: the single status field, the in-memory paired-device
certificate map, and the certificate directory.  The handler's own
`CertificateInfo` is not consulted by any of the claimed operations and is
omitted. -/
structure PairingHandler where
  status : PairingStatus
  paired_devices : List (String × Bytes)
  cert_dir : String

/-- Embeds the certificate path join: `cert_dir` slash `device_id` dot `pem`. -/
def certPath (cert_dir device_id : String) : String :=
  cert_dir ++ "/" ++ device_id ++ ".pem"

/-- Embeds `PairingHandler::store_device_certificate`: write the PEM file, then
record the DER bytes in `paired_devices`.  Rust's `&mut self` with `?`
is embedded as a (result, handler, filesystem) triple: on error the state
components are the ones already reached. -/
def PairingHandler.store_device_certificate (h : PairingHandler) (fs : FileSystem)
    (device_id : String) (cert_der : Bytes) :
    Except ProtocolError Unit × PairingHandler × FileSystem :=
  match fs.write (certPath h.cert_dir device_id) (.pemFile "CERTIFICATE" cert_der) with
  | .error e => (.error e, h, fs)
  | .ok fs' =>
    (.ok (), { h with paired_devices := assocInsert device_id cert_der h.paired_devices }, fs')

/-- Embeds `PairingHandler::remove_device_certificate`: delete the PEM file if it
exists, then drop the `paired_devices` entry. -/
def PairingHandler.remove_device_certificate (h : PairingHandler) (fs : FileSystem)
    (device_id : String) :
    Except ProtocolError Unit × PairingHandler × FileSystem :=
  if fs.fileExists (certPath h.cert_dir device_id) then
    match fs.removeFile (certPath h.cert_dir device_id) with
    | .error e => (.error e, h, fs)
    | .ok fs' =>
      (.ok (), { h with paired_devices := assocRemove device_id h.paired_devices }, fs')
  else
    (.ok (), { h with paired_devices := assocRemove device_id h.paired_devices }, fs)

/-- Embeds `PairingHandler::handle_pairing_packet`.  The success value is the
`(should_respond, response_packet)` pair; `now` stands for the wall clock
read when building a response packet. -/
def PairingHandler.handle_pairing_packet (h : PairingHandler) (fs : FileSystem)
    (packet : Packet) (device_id : String) (device_cert : Bytes) (now : Nat) :
    Except ProtocolError (Bool × Option Packet) × PairingHandler × FileSystem :=
  match PairingPacket.from_packet packet with
  | .error e => (.error e, h, fs)
  | .ok pairing =>
    if pairing.pair then
      match h.status with
      | .Unpaired => (.ok (false, none), { h with status := .RequestedByPeer }, fs)
      | .Requested =>
        match h.store_device_certificate fs device_id device_cert with
        | (.error e, h', fs') => (.error e, h', fs')
        | (.ok _, h', fs') =>
          (.ok (true, some (PairingPacket.accept now)), { h' with status := .Paired }, fs')
      | .RequestedByPeer => (.ok (false, none), h, fs)
      | .Paired => (.ok (true, none), h, fs)
    else
      if h.status = .Paired then
        match h.remove_device_certificate fs device_id with
        | (.error e, h', fs') => (.error e, h', fs')
        | (.ok _, h', fs') => (.ok (false, none), { h' with status := .Unpaired }, fs')
      else
        (.ok (false, none), { h with status := .Unpaired }, fs)

/-- Embeds `PairingHandler::accept_pairing`. -/
def PairingHandler.accept_pairing (h : PairingHandler) (fs : FileSystem)
    (device_id : String) (device_cert : Bytes) (now : Nat) :
    Except ProtocolError Packet × PairingHandler × FileSystem :=
  if h.status ≠ .RequestedByPeer then
    (.error (.invalidPacket "No pairing request pending"), h, fs)
  else
    match h.store_device_certificate fs device_id device_cert with
    | (.error e, h', fs') => (.error e, h', fs')
    | (.ok _, h', fs') => (.ok (PairingPacket.accept now), { h' with status := .Paired }, fs')

/-- Embeds `PairingHandler::is_paired`. -/
def PairingHandler.is_paired (h : PairingHandler) (device_id : String) : Bool :=
  containsKey device_id h.paired_devices || h.status == .Paired

/-- A directory entry as `load_paired_devices` sees it: the path's file
stem and extension, and the outcome of `fs::read` on it. -/
structure DirEntry where
  stem : Option String
  ext : Option String
  readResult : Except ProtocolError FileData

/-- The loop body of `PairingHandler::load_paired_devices` over the
`read_dir` iterator (whose items can themselves be errors, which
propagate). -/
def loadPairedLoop (h : PairingHandler) :
    List (Except ProtocolError DirEntry) → Except ProtocolError PairingHandler
  | [] => .ok h
  | .error e :: _ => .error e
  | .ok d :: rest =>
    if d.ext == some "pem" then
      match d.stem with
      | some device_id =>
        if device_id == "device_cert" || device_id == "device_key" then
          loadPairedLoop h rest
        else
          match d.readResult with
          | .error _ => loadPairedLoop h rest
          | .ok data =>
            match pemParse data with
            | .error _ => loadPairedLoop h rest
            | .ok (tag, contents) =>
              if tag == "CERTIFICATE" then
                loadPairedLoop
                  { h with paired_devices := assocInsert device_id contents h.paired_devices }
                  rest
              else
                loadPairedLoop h rest
      | none => loadPairedLoop h rest
    else
      loadPairedLoop h rest

/-- Embeds `PairingHandler::load_paired_devices`. -/
def PairingHandler.load_paired_devices (h : PairingHandler)
    (entries : List (Except ProtocolError DirEntry)) : Except ProtocolError PairingHandler :=
  loadPairedLoop h entries

/-- Does `load_paired_devices` add a trust-store entry for key `d` from
entry `e`?  True exactly for a readable `.pem` file whose stem is `d`, is
not one of the own-identity files, and parses as a `CERTIFICATE` block. -/
def entryLoads (e : DirEntry) (d : String) : Bool :=
  e.ext == some "pem" && e.stem == some d &&
    !(d == "device_cert" || d == "device_key") &&
    (match e.readResult with
     | .ok (.pemFile tag _) => tag == "CERTIFICATE"
     | _ => false)

/-! ## Discovery service (`discovery/service.rs`) -/

/-- Embeds `DeviceInfo` (spec §3); the fields the discovery handler uses. -/
structure DeviceInfo where
  device_id : String
  device_name : String
  device_type : String
  protocol_version : Nat
  tcp_port : Nat
  deriving DecidableEq, Repr

/-- Embeds `DiscoveryEvent` (constructors named as emitted by `service.rs` /
spec §4.4). -/
inductive DiscoveryEvent where
  | DeviceDiscovered (info : DeviceInfo) (tcp_endpoint : String × Nat)
  | DeviceUpdated (info : DeviceInfo) (tcp_endpoint : String × Nat)
  | DeviceTimeout (device_id : String)
  deriving DecidableEq, Repr

/-- Embeds `DiscoveryService::handle_packet`.  `from_bytes` and
`from_identity_packet` are the codec functions (not under `src/`), passed
as parameters; `last_seen` is the shared map, `now` the current unix
seconds.  Returns the call's `Result<()>`, the updated `last_seen`, and
the event sent on `event_tx` (if any). -/
def DiscoveryService.handle_packet
    (from_bytes : Bytes → Except ProtocolError Packet)
    (from_identity_packet : Packet → Except ProtocolError DeviceInfo)
    (data : Bytes) (src_addr : String × Nat) (own_device_id : String)
    (last_seen : List (String × Nat)) (now : Nat) :
    Except ProtocolError Unit × List (String × Nat) × Option DiscoveryEvent :=
  match from_bytes data with
  | .error e => (.error e, last_seen, none)
  | .ok packet =>
    if packet.is_type "cconnect.identity" then
      match from_identity_packet packet with
      | .error e => (.error e, last_seen, none)
      | .ok info =>
        if info.device_id == own_device_id then
          (.ok (), last_seen, none)
        else
          let is_new := !containsKey info.device_id last_seen
          let last_seen' := assocInsert info.device_id now last_seen
          let tcp_addr := (src_addr.1, info.tcp_port)
          (.ok (), last_seen',
            some (if is_new then .DeviceDiscovered info tcp_addr
                  else .DeviceUpdated info tcp_addr))
    else
      (.ok (), last_seen, none)

/-- Embeds `u64` wrapping subtraction (`current_time - last_time` on `u64`s in
release mode). -/
def sub_u64 (a b : Nat) : Nat :=
  (a + 2 ^ 64 - b) % 2 ^ 64

/-- One tick of the loop in `DiscoveryService::spawn_timeout_checker`:
collect the ids whose `now - last_time > timeout_secs`, remove each from
`last_seen`, and emit one `DeviceTimeout` per removed id (in collection
order).  Returns the updated map and the emitted events. -/
def check_device_timeouts (last_seen : List (String × Nat)) (now timeout_secs : Nat) :
    List (String × Nat) × List DiscoveryEvent :=
  let timed_out :=
    (last_seen.filter (fun kv => decide (timeout_secs < sub_u64 now kv.2))).map
      (fun kv => kv.1)
  (timed_out.foldl (fun acc id => assocRemove id acc) last_seen,
   timed_out.map (fun id => .DeviceTimeout id))

/-! ## Connection manager (`connection/manager.rs`) -/

/-- Embeds `ConnectionEvent` (the constructors the first-frame phase emits). -/
inductive ConnectionEvent where
  | Connected (device_id : String) (remote_addr : String × Nat)
  | PacketReceived (device_id : String) (packet : Packet)
  deriving DecidableEq, Repr

/-- The identification phase of
`ConnectionManager::spawn_connection_handler` on a freshly accepted TLS
session: `recv` is the outcome of the first `receive_packet` (already
decoded to a `Packet`, or the receive/decode error), `connections` the
session table.  Returns the events emitted, the session table afterwards,
and the device id the session was installed under (`none` means the
handler returned, aborting the session).  The `device_manager.mark_connected`
call is only logged on failure and does not influence installation; it is
not modelled. -/
def spawn_connection_handler_first_frame
    (recv : Except ProtocolError Packet)
    (remote_addr : String × Nat)
    (connections : List (String × (String × Nat))) :
    List ConnectionEvent × List (String × (String × Nat)) × Option String :=
  match recv with
  | .error _ => ([], connections, none)
  | .ok packet =>
    match packet.get_body_str "deviceId" with
    | some id =>
      ([.Connected id remote_addr, .PacketReceived id packet],
       assocInsert id remote_addr connections,
       some id)
    | none => ([], connections, none)

/-- The device id the first-frame phase identifies, if any: a string
`deviceId` field of a successfully received first packet. -/
def firstFrameDeviceId (recv : Except ProtocolError Packet) : Option String :=
  match recv with
  | .error _ => none
  | .ok packet => packet.get_body_str "deviceId"

/-! ## Claim theorems -/

/-- C1: mutual-TLS certificate verification is byte-exact — the server-side
client-certificate verifier accepts iff the presented end-entity DER bytes
are among the trusted paired certificates, the client-side
server-certificate verifier accepts iff they equal the pinned peer
certificate, and every other case is an `InvalidCertificate` error. -/
theorem c1_mutual_tls_byte_exact
    (v : KdeConnectServerCertVerifier) (w : KdeConnectClientCertVerifier) (c : Bytes) :
    ((verify_client_cert v c).isOk = true ↔ c ∈ v.trusted_certs) ∧
    (c ∉ v.trusted_certs →
      verify_client_cert v c = .error (.invalidCertificate .unknownIssuer)) ∧
    ((verify_server_cert w c).isOk = true ↔ c = w.expected_cert) ∧
    (c ≠ w.expected_cert →
      verify_server_cert w c = .error (.invalidCertificate .unknownIssuer)) := by
  refine ⟨?_, ?_, ?_, ?_⟩ <;> simp only [verify_client_cert, verify_server_cert] <;>
    split_ifs with h <;> simp_all [Except.isOk, Except.toBool]

/-- Witness for C1 at concrete certificates. -/
theorem c1_mutual_tls_byte_exact_witness :
    verify_client_cert ⟨[[1, 2], [3]]⟩ [9] = .error (.invalidCertificate .unknownIssuer) ∧
    verify_server_cert ⟨[3]⟩ [9] = .error (.invalidCertificate .unknownIssuer) :=
  ⟨(c1_mutual_tls_byte_exact ⟨[[1, 2], [3]]⟩ ⟨[3]⟩ [9]).2.1 (by decide),
   (c1_mutual_tls_byte_exact ⟨[[1, 2], [3]]⟩ ⟨[3]⟩ [9]).2.2.2 (by decide)⟩

/-- C4: the frame-size boundary at 10 MiB — `send_packet` succeeds (and
writes the length-prefixed frame) for every encoded size at most
`MAX_PACKET_SIZE`, returns an `InvalidPacket` error leaving the stream
untouched for every larger size, and `receive_packet` returns an
`InvalidPacket` error for every frame whose big-endian length prefix
exceeds `MAX_PACKET_SIZE`. -/
theorem c4_frame_size_boundary :
    (∀ bytes stream : Bytes, bytes.length ≤ MAX_PACKET_SIZE →
      send_packet bytes stream = (.ok (), stream ++ u32_be_bytes bytes.length ++ bytes)) ∧
    (∀ bytes stream : Bytes, bytes.length > MAX_PACKET_SIZE →
      isInvalidPacketErr (send_packet bytes stream).1 = true ∧
      (send_packet bytes stream).2 = stream) ∧
    (∀ (b0 b1 b2 b3 : Nat) (rest : Bytes), u32_from_be b0 b1 b2 b3 > MAX_PACKET_SIZE →
      isInvalidPacketErr (receive_packet (b0 :: b1 :: b2 :: b3 :: rest)) = true) := by
  refine ⟨?_, ?_, ?_⟩
  · intro bytes stream hle
    simp [send_packet, Nat.not_lt.mpr hle]
  · intro bytes stream hgt
    simp [send_packet, hgt, isInvalidPacketErr]
  · intro b0 b1 b2 b3 rest hgt
    simp [receive_packet, hgt, isInvalidPacketErr]

/-- Witness for C4: a 1-byte frame is framed and sent; a frame of
`MAX_PACKET_SIZE + 1` bytes is rejected; a received length prefix of
16 MiB is rejected. -/
theorem c4_frame_size_boundary_witness :
    send_packet [7] [] = (.ok (), [0, 0, 0, 1, 7]) ∧
    isInvalidPacketErr (send_packet (List.replicate (MAX_PACKET_SIZE + 1) 0) []).1 = true ∧
    isInvalidPacketErr (receive_packet [1, 0, 0, 0]) = true := by
  refine ⟨?_, ?_, ?_⟩
  · have h := c4_frame_size_boundary.1 [7] [] (by decide)
    simpa [u32_be_bytes] using h
  · exact (c4_frame_size_boundary.2.1 (List.replicate (MAX_PACKET_SIZE + 1) 0) []
      (by simp [List.length_replicate])).1
  · exact c4_frame_size_boundary.2.2 1 0 0 0 [] (by decide)

/-- C2 counterexample: the claim says a freshly accepted session is
aborted unless the first frame is an identity packet whose
`body.deviceId` matches a paired device.  But the handler installs the
session and emits `Connected` for a first packet of type
`kdeconnect.ping` (not an identity packet) carrying a `deviceId` that no
pairing ever recorded — the code checks neither the packet type nor
pairedness, only the presence of a string `deviceId` field. -/
theorem c2_counterexample :
    spawn_connection_handler_first_frame
        (.ok ⟨"kdeconnect.ping", [("deviceId", .str "intruder")]⟩) ("10.0.0.5", 40000) [] =
      ([.Connected "intruder" ("10.0.0.5", 40000),
        .PacketReceived "intruder" ⟨"kdeconnect.ping", [("deviceId", .str "intruder")]⟩],
       [("intruder", ("10.0.0.5", 40000))], some "intruder") ∧
    Packet.is_type ⟨"kdeconnect.ping", [("deviceId", .str "intruder")]⟩ "cconnect.identity"
      = false := by
  constructor <;> decide

/-- C2 amended: the session is aborted (no table entry, no events) iff the
first receive fails or the first packet's body has no string `deviceId`
field; otherwise the session is installed under that `deviceId` and
`Connected` plus `PacketReceived` are emitted — regardless of the packet's
type and of whether the device is paired. -/
theorem c2_amended (recv : Except ProtocolError Packet) (addr : String × Nat)
    (conns : List (String × (String × Nat))) :
    (firstFrameDeviceId recv = none →
      spawn_connection_handler_first_frame recv addr conns = ([], conns, none)) ∧
    (∀ p id, recv = .ok p → p.get_body_str "deviceId" = some id →
      spawn_connection_handler_first_frame recv addr conns =
        ([.Connected id addr, .PacketReceived id p], assocInsert id addr conns, some id)) := by
  constructor
  · intro hnone
    cases recv with
    | error e => rfl
    | ok p =>
      simp only [firstFrameDeviceId] at hnone
      simp [spawn_connection_handler_first_frame, hnone]
  · rintro p id rfl hid
    simp [spawn_connection_handler_first_frame, hid]

/-- Witness for C2 amended at a concrete aborted and a concrete installed
session. -/
theorem c2_amended_witness :
    spawn_connection_handler_first_frame (.error (.io "eof")) ("10.0.0.5", 40000) []
      = ([], [], none) ∧
    spawn_connection_handler_first_frame
        (.ok ⟨"kdeconnect.ping", [("deviceId", .str "x")]⟩) ("10.0.0.5", 40000) [] =
      ([.Connected "x" ("10.0.0.5", 40000),
        .PacketReceived "x" ⟨"kdeconnect.ping", [("deviceId", .str "x")]⟩],
       assocInsert "x" ("10.0.0.5", 40000) [], some "x") :=
  ⟨(c2_amended (.error (.io "eof")) ("10.0.0.5", 40000) []).1 rfl,
   (c2_amended (.ok ⟨"kdeconnect.ping", [("deviceId", .str "x")]⟩) ("10.0.0.5", 40000) []).2
     ⟨"kdeconnect.ping", [("deviceId", .str "x")]⟩ "x" rfl rfl⟩

/-- C10 (implicit): `is_paired` consults one global status — it returns
true iff the device is a key of `paired_devices` or the handler's single
status field is `Paired`; hence once the status is `Paired`, `is_paired`
answers true for every device id whatsoever. -/
theorem c10_is_paired_global_status (h : PairingHandler) (d : String) :
    (h.is_paired d = true ↔
      (containsKey d h.paired_devices = true ∨ h.status = .Paired)) ∧
    (h.status = .Paired → h.is_paired d = true) := by
  constructor
  · simp [PairingHandler.is_paired]
  · intro hs
    simp [PairingHandler.is_paired, hs]

/-- Witness for C10: a handler whose status is `Paired` but whose paired
map is empty reports every device id as paired. -/
theorem c10_is_paired_global_status_witness :
    PairingHandler.is_paired ⟨.Paired, [], "certs"⟩ "never-paired-device" = true :=
  (c10_is_paired_global_status ⟨.Paired, [], "certs"⟩ "never-paired-device").2 rfl

theorem assocRemove_of_not_containsKey {β : Type} (k : String) (m : List (String × β))
    (h : containsKey k m = false) : assocRemove k m = m := by
  induction m with
  | nil => rfl
  | cons kv tl ih =>
    simp only [containsKey, Bool.or_eq_false_iff] at h
    have h1 : ¬ kv.1 = k := by simpa using h.1
    simp [assocRemove, h1, ih h.2]

/-- C3: pairing is atomic on storage failure — whenever the certificate
write fails, `handle_pairing_packet` (on a `pair=true` packet) and
`accept_pairing` return the storage error with the handler and filesystem
exactly as before the call whenever they reach the store, the status is
never advanced to `Paired`, and `paired_devices` gains no entry. -/
theorem c3_pairing_atomic_on_storage_failure
    (h : PairingHandler) (fs : FileSystem) (p : Packet) (d : String) (cert : Bytes) (now : Nat)
    (hw : fs.writeFails (certPath h.cert_dir d) = true)
    (hp : PairingPacket.from_packet p = .ok ⟨true⟩) :
    (h.status = .Requested →
      h.handle_pairing_packet fs p d cert now = (.error (.io "write failed"), h, fs)) ∧
    (h.status = .RequestedByPeer →
      h.accept_pairing fs d cert now = (.error (.io "write failed"), h, fs)) ∧
    ((h.handle_pairing_packet fs p d cert now).2.1.status = .Paired → h.status = .Paired) ∧
    (∀ x, containsKey x (h.handle_pairing_packet fs p d cert now).2.1.paired_devices = true →
      containsKey x h.paired_devices = true) ∧
    (h.accept_pairing fs d cert now).2.1 = h ∧ (h.accept_pairing fs d cert now).2.2 = fs := by
  have hstore : h.store_device_certificate fs d cert = (.error (.io "write failed"), h, fs) := by
    simp [PairingHandler.store_device_certificate, FileSystem.write, hw]
  refine ⟨?_, ?_, ?_, ?_, ?_⟩
  · intro hs
    simp [PairingHandler.handle_pairing_packet, hp, hs, hstore]
  · intro hs
    simp [PairingHandler.accept_pairing, hs, hstore]
  · cases hs : h.status <;>
      simp [PairingHandler.handle_pairing_packet, hp, hs, hstore]
  · intro x
    cases hs : h.status <;>
      simp [PairingHandler.handle_pairing_packet, hp, hs, hstore]
  · by_cases hs : h.status = .RequestedByPeer <;>
      simp [PairingHandler.accept_pairing, hs, hstore]

/-- Witness for C3: a failing certificate write makes `handle_pairing_packet`
return the I/O error with the handler state untouched. -/
theorem c3_pairing_atomic_on_storage_failure_witness :
    PairingHandler.handle_pairing_packet ⟨.Requested, [], "certs"⟩
        ⟨[], fun _ => true, fun _ => false⟩ ⟨"cconnect.pair", [("pair", .boolean true)]⟩
        "phone" [1] 0 =
      (.error (.io "write failed"), ⟨.Requested, [], "certs"⟩,
        ⟨[], fun _ => true, fun _ => false⟩) :=
  (c3_pairing_atomic_on_storage_failure ⟨.Requested, [], "certs"⟩
      ⟨[], fun _ => true, fun _ => false⟩ ⟨"cconnect.pair", [("pair", .boolean true)]⟩
      "phone" [1] 0 rfl rfl).1 rfl

/-- C7 counterexample: the claim says that for EVERY current pairing
status a `pair=false` packet deletes the stored peer certificate if
present.  With status `Unpaired` but a certificate present in
`paired_devices` and on disk (the state produced by `load_paired_devices`
at startup), `handle_pairing_packet` on `pair=false` leaves both the map
entry and the file in place: the code deletes only when the status is
`Paired`. -/
theorem c7_counterexample :
    (PairingHandler.handle_pairing_packet ⟨.Unpaired, [("phone", [1])], "certs"⟩
        ⟨[("certs/phone.pem", .pemFile "CERTIFICATE" [1])], fun _ => false, fun _ => false⟩
        PairingPacket.reject "phone" [1] 0).2.1.paired_devices = [("phone", [1])] ∧
    (PairingHandler.handle_pairing_packet ⟨.Unpaired, [("phone", [1])], "certs"⟩
        ⟨[("certs/phone.pem", .pemFile "CERTIFICATE" [1])], fun _ => false, fun _ => false⟩
        PairingPacket.reject "phone" [1] 0).2.2.files =
      [("certs/phone.pem", .pemFile "CERTIFICATE" [1])] ∧
    (PairingHandler.handle_pairing_packet ⟨.Unpaired, [("phone", [1])], "certs"⟩
        ⟨[("certs/phone.pem", .pemFile "CERTIFICATE" [1])], fun _ => false, fun _ => false⟩
        PairingPacket.reject "phone" [1] 0).2.1.status = .Unpaired :=
  ⟨rfl, rfl, rfl⟩

/-- C7 amended: on a `pair=false` packet, for every status other than
`Paired` the status transitions to `Unpaired`, no response is sent, and
the stored certificate (map entry and `.pem` file), if present, is left
untouched.  When the status is `Paired` the handler deletes the stored
certificate and transitions to `Unpaired`, except that if the `.pem` file
exists and removing it fails, the I/O error is returned and the state —
status still `Paired`, map and files untouched — is unchanged. -/
theorem c7_amended (h : PairingHandler) (fs : FileSystem) (p : Packet) (d : String)
    (cert : Bytes) (now : Nat)
    (hp : PairingPacket.from_packet p = .ok ⟨false⟩) :
    (h.status ≠ .Paired →
      h.handle_pairing_packet fs p d cert now =
        (.ok (false, none), { h with status := .Unpaired }, fs)) ∧
    (h.status = .Paired → fs.removeFails (certPath h.cert_dir d) = false →
      h.handle_pairing_packet fs p d cert now =
        (.ok (false, none),
         ⟨.Unpaired, assocRemove d h.paired_devices, h.cert_dir⟩,
         { fs with files := assocRemove (certPath h.cert_dir d) fs.files })) ∧
    (h.status = .Paired → fs.fileExists (certPath h.cert_dir d) = true →
      fs.removeFails (certPath h.cert_dir d) = true →
      h.handle_pairing_packet fs p d cert now = (.error (.io "remove failed"), h, fs)) ∧
    (h.status = .Paired → fs.fileExists (certPath h.cert_dir d) = false →
      h.handle_pairing_packet fs p d cert now =
        (.ok (false, none),
         ⟨.Unpaired, assocRemove d h.paired_devices, h.cert_dir⟩,
         { fs with files := assocRemove (certPath h.cert_dir d) fs.files })) := by
  refine ⟨?_, ?_, ?_, ?_⟩
  · intro hs
    simp [PairingHandler.handle_pairing_packet, hp, hs]
  · intro hs hr
    by_cases hex : fs.fileExists (certPath h.cert_dir d) = true
    · simp [PairingHandler.handle_pairing_packet, hp, hs,
        PairingHandler.remove_device_certificate, hex, FileSystem.removeFile, hr]
    · have hfiles : assocRemove (certPath h.cert_dir d) fs.files = fs.files :=
        assocRemove_of_not_containsKey _ _ (by simpa [FileSystem.fileExists] using hex)
      obtain ⟨fl, wf, rf⟩ := fs
      simp only at hfiles
      simp [PairingHandler.handle_pairing_packet, hp, hs,
        PairingHandler.remove_device_certificate, hex, hfiles]
  · intro hs hex hr
    simp [PairingHandler.handle_pairing_packet, hp, hs,
      PairingHandler.remove_device_certificate, hex, FileSystem.removeFile, hr]
  · intro hs hex
    have hfiles : assocRemove (certPath h.cert_dir d) fs.files = fs.files :=
      assocRemove_of_not_containsKey _ _ (by simpa [FileSystem.fileExists] using hex)
    obtain ⟨fl, wf, rf⟩ := fs
    simp only at hfiles
    simp [PairingHandler.handle_pairing_packet, hp, hs,
      PairingHandler.remove_device_certificate, hex, hfiles]

/-- Witness for C7 amended: unpairing from `Paired` removes the map entry
and the certificate file; and with a failing `remove_file` the error is
returned with the status still `Paired` and the state untouched. -/
theorem c7_amended_witness :
    PairingHandler.handle_pairing_packet ⟨.Paired, [("phone", [1])], "certs"⟩
        ⟨[("certs/phone.pem", .pemFile "CERTIFICATE" [1])], fun _ => false, fun _ => false⟩
        PairingPacket.reject "phone" [1] 0 =
      (.ok (false, none), ⟨.Unpaired, assocRemove "phone" [("phone", [1])], "certs"⟩,
       ⟨assocRemove "certs/phone.pem" [("certs/phone.pem", .pemFile "CERTIFICATE" [1])],
        fun _ => false, fun _ => false⟩) ∧
    PairingHandler.handle_pairing_packet ⟨.Paired, [("phone", [1])], "certs"⟩
        ⟨[("certs/phone.pem", .pemFile "CERTIFICATE" [1])], fun _ => false, fun _ => true⟩
        PairingPacket.reject "phone" [1] 0 =
      (.error (.io "remove failed"), ⟨.Paired, [("phone", [1])], "certs"⟩,
       ⟨[("certs/phone.pem", .pemFile "CERTIFICATE" [1])], fun _ => false, fun _ => true⟩) :=
  ⟨(c7_amended ⟨.Paired, [("phone", [1])], "certs"⟩
      ⟨[("certs/phone.pem", .pemFile "CERTIFICATE" [1])], fun _ => false, fun _ => false⟩
      PairingPacket.reject "phone" [1] 0 rfl).2.1 rfl rfl,
   (c7_amended ⟨.Paired, [("phone", [1])], "certs"⟩
      ⟨[("certs/phone.pem", .pemFile "CERTIFICATE" [1])], fun _ => false, fun _ => true⟩
      PairingPacket.reject "phone" [1] 0 rfl).2.2.1 rfl (by decide) rfl⟩

/-- C8 counterexample: the claim says `accept_pairing` errors iff the
status is not `RequestedByPeer`.  But when the status IS
`RequestedByPeer` and storing the certificate fails, it still returns an
error — so "error iff not RequestedByPeer" is false. -/
theorem c8_counterexample :
    (PairingHandler.accept_pairing ⟨.RequestedByPeer, [], "certs"⟩
        ⟨[], fun _ => true, fun _ => false⟩ "phone" [1] 0).1 = .error (.io "write failed") ∧
    (⟨.RequestedByPeer, [], "certs"⟩ : PairingHandler).status = .RequestedByPeer :=
  ⟨rfl, rfl⟩

/-- C8 amended: `accept_pairing` returns an error iff the status is not
`RequestedByPeer` or the certificate write fails; when the status is
`RequestedByPeer` and the write succeeds it stores the certificate (map
entry and file), sets the status to `Paired`, and returns the `pair=true`
response packet. -/
theorem c8_amended (h : PairingHandler) (fs : FileSystem) (d : String) (cert : Bytes)
    (now : Nat) :
    (isErr (h.accept_pairing fs d cert now).1 = true ↔
      (h.status ≠ .RequestedByPeer ∨ fs.writeFails (certPath h.cert_dir d) = true)) ∧
    (h.status = .RequestedByPeer → fs.writeFails (certPath h.cert_dir d) = false →
      h.accept_pairing fs d cert now =
        (.ok (PairingPacket.accept now),
         ⟨.Paired, assocInsert d cert h.paired_devices, h.cert_dir⟩,
         { fs with files := assocInsert (certPath h.cert_dir d) (.pemFile "CERTIFICATE" cert) fs.files })) := by
  constructor
  · by_cases hs : h.status = .RequestedByPeer <;>
      by_cases hw : fs.writeFails (certPath h.cert_dir d) = true <;>
      simp [PairingHandler.accept_pairing, hs, hw,
        PairingHandler.store_device_certificate, FileSystem.write]
  · intro hs hw
    simp [PairingHandler.accept_pairing, hs, hw,
      PairingHandler.store_device_certificate, FileSystem.write]

/-- Witness for C8 amended: a successful acceptance from
`RequestedByPeer`. -/
theorem c8_amended_witness :
    PairingHandler.accept_pairing ⟨.RequestedByPeer, [], "certs"⟩
        ⟨[], fun _ => false, fun _ => false⟩ "phone" [1] 0 =
      (.ok (PairingPacket.accept 0),
       ⟨.Paired, assocInsert "phone" [1] [], "certs"⟩,
       ⟨assocInsert (certPath "certs" "phone") (.pemFile "CERTIFICATE" [1]) [],
        fun _ => false, fun _ => false⟩) :=
  (c8_amended ⟨.RequestedByPeer, [], "certs"⟩ ⟨[], fun _ => false, fun _ => false⟩
      "phone" [1] 0).2 rfl rfl

theorem is_type_identity_iff (p : Packet) :
    p.is_type "cconnect.identity" = true ↔
      (p.packet_type = "kdeconnect.identity" ∨ p.packet_type = "cconnect.identity") := by
  have halias : typeAlias "cconnect.identity" = "cconnect.identity" := by decide
  simp only [Packet.is_type, halias, beq_iff_eq]
  unfold typeAlias
  by_cases h1 : p.packet_type = "kdeconnect.identity"
  · simp [h1]
  · by_cases h2 : p.packet_type = "kdeconnect.pair"
    · simp only [h2]
      norm_num
      decide
    · simp [h1, h2]

theorem handle_packet_fb_error
    (fb : Bytes → Except ProtocolError Packet)
    (fi : Packet → Except ProtocolError DeviceInfo)
    (data : Bytes) (src : String × Nat) (own : String)
    (m : List (String × Nat)) (now : Nat) (e : ProtocolError)
    (hfb : fb data = .error e) :
    DiscoveryService.handle_packet fb fi data src own m now = (.error e, m, none) := by
  simp [DiscoveryService.handle_packet, hfb]

theorem handle_packet_not_identity
    (fb : Bytes → Except ProtocolError Packet)
    (fi : Packet → Except ProtocolError DeviceInfo)
    (data : Bytes) (src : String × Nat) (own : String)
    (m : List (String × Nat)) (now : Nat) (p : Packet)
    (hfb : fb data = .ok p) (hty : p.is_type "cconnect.identity" = false) :
    DiscoveryService.handle_packet fb fi data src own m now = (.ok (), m, none) := by
  simp [DiscoveryService.handle_packet, hfb, hty]

theorem handle_packet_fi_error
    (fb : Bytes → Except ProtocolError Packet)
    (fi : Packet → Except ProtocolError DeviceInfo)
    (data : Bytes) (src : String × Nat) (own : String)
    (m : List (String × Nat)) (now : Nat) (p : Packet) (e : ProtocolError)
    (hfb : fb data = .ok p) (hty : p.is_type "cconnect.identity" = true)
    (hfi : fi p = .error e) :
    DiscoveryService.handle_packet fb fi data src own m now = (.error e, m, none) := by
  simp [DiscoveryService.handle_packet, hfb, hty, hfi]

theorem handle_packet_own_identity
    (fb : Bytes → Except ProtocolError Packet)
    (fi : Packet → Except ProtocolError DeviceInfo)
    (data : Bytes) (src : String × Nat) (own : String)
    (m : List (String × Nat)) (now : Nat) (p : Packet) (info : DeviceInfo)
    (hfb : fb data = .ok p) (hty : p.is_type "cconnect.identity" = true)
    (hfi : fi p = .ok info) (hid : info.device_id = own) :
    DiscoveryService.handle_packet fb fi data src own m now = (.ok (), m, none) := by
  simp [DiscoveryService.handle_packet, hfb, hty, hfi, hid]

theorem handle_packet_accepted
    (fb : Bytes → Except ProtocolError Packet)
    (fi : Packet → Except ProtocolError DeviceInfo)
    (data : Bytes) (src : String × Nat) (own : String)
    (m : List (String × Nat)) (now : Nat) (p : Packet) (info : DeviceInfo)
    (hfb : fb data = .ok p) (hty : p.is_type "cconnect.identity" = true)
    (hfi : fi p = .ok info) (hid : info.device_id ≠ own) :
    DiscoveryService.handle_packet fb fi data src own m now =
      (.ok (), assocInsert info.device_id now m,
       some (if containsKey info.device_id m then
               .DeviceUpdated info (src.1, info.tcp_port)
             else .DeviceDiscovered info (src.1, info.tcp_port))) := by
  have hid' : (info.device_id == own) = false := by simp [hid]
  by_cases hmem : containsKey info.device_id m = true
  · simp [DiscoveryService.handle_packet, hfb, hty, hfi, hid', hmem]
  · have hmem' : containsKey info.device_id m = false := by simpa using hmem
    simp [DiscoveryService.handle_packet, hfb, hty, hfi, hid', hmem']

/-- C5: the discovery handler emits an event iff the datagram decodes as a
`kdeconnect.identity` / `cconnect.identity` packet carrying a `device_id`
other than our own; the event is `DeviceDiscovered` for a device not in
`last_seen` and `DeviceUpdated` otherwise, `last_seen[device_id]` is set
to the current time, and our own identity produces no event and no update.
`fb` / `fi` are the codec parameters `Packet::from_bytes` and
`DeviceInfo::from_identity_packet`. -/
theorem c5_discovery_handle_packet
    (fb : Bytes → Except ProtocolError Packet)
    (fi : Packet → Except ProtocolError DeviceInfo)
    (data : Bytes) (src : String × Nat) (own : String)
    (m : List (String × Nat)) (now : Nat) :
    ((DiscoveryService.handle_packet fb fi data src own m now).2.2.isSome = true ↔
      ∃ p info, fb data = .ok p ∧
        (p.packet_type = "kdeconnect.identity" ∨ p.packet_type = "cconnect.identity") ∧
        fi p = .ok info ∧ info.device_id ≠ own) ∧
    (∀ p info, fb data = .ok p → fi p = .ok info →
      (p.packet_type = "kdeconnect.identity" ∨ p.packet_type = "cconnect.identity") →
      info.device_id ≠ own →
      (DiscoveryService.handle_packet fb fi data src own m now).2.1 =
          assocInsert info.device_id now m ∧
      (DiscoveryService.handle_packet fb fi data src own m now).2.2 =
        some (if containsKey info.device_id m then
                .DeviceUpdated info (src.1, info.tcp_port)
              else .DeviceDiscovered info (src.1, info.tcp_port))) ∧
    (∀ p info, fb data = .ok p → fi p = .ok info → info.device_id = own →
      (DiscoveryService.handle_packet fb fi data src own m now).2.1 = m ∧
      (DiscoveryService.handle_packet fb fi data src own m now).2.2 = none) := by
  rcases hfb : fb data with e | p
  · refine ⟨?_, ?_, ?_⟩
    · rw [handle_packet_fb_error fb fi data src own m now e hfb]
      simp [hfb]
    · intro p info hp
      exact absurd hp (by simp)
    · intro p info hp
      exact absurd hp (by simp)
  · by_cases hty : p.is_type "cconnect.identity" = true
    · rcases hfi : fi p with e | info
      · refine ⟨?_, ?_, ?_⟩
        · rw [handle_packet_fi_error fb fi data src own m now p e hfb hty hfi]
          simp [hfb, hfi]
        · intro p' info' hp' hfi' hty2 hid'
          obtain rfl : p = p' := by simpa using hp'
          rw [hfi] at hfi'
          exact absurd hfi' (by simp)
        · intro p' info' hp' hfi' hid'
          obtain rfl : p = p' := by simpa using hp'
          rw [hfi] at hfi'
          exact absurd hfi' (by simp)
      · by_cases hid : info.device_id = own
        · refine ⟨?_, ?_, ?_⟩
          · rw [handle_packet_own_identity fb fi data src own m now p info hfb hty hfi hid]
            simp only [Option.isSome_none, Bool.false_eq_true, false_iff]
            rintro ⟨p', info', hp', htyid, hfi', hid'⟩
            obtain rfl : p = p' := by simpa using hp'
            rw [hfi] at hfi'
            obtain rfl : info = info' := by simpa using hfi'
            exact hid' hid
          · intro p' info' hp' hfi' hty2 hid'
            obtain rfl : p = p' := by simpa using hp'
            rw [hfi] at hfi'
            obtain rfl : info = info' := by simpa using hfi'
            exact absurd hid hid'
          · intro p' info' hp' hfi' hid'
            rw [handle_packet_own_identity fb fi data src own m now p info hfb hty hfi hid]
            exact ⟨rfl, rfl⟩
        · refine ⟨?_, ?_, ?_⟩
          · rw [handle_packet_accepted fb fi data src own m now p info hfb hty hfi hid]
            simp only [Option.isSome_some, true_iff]
            exact ⟨p, info, rfl, (is_type_identity_iff p).mp hty, hfi, hid⟩
          · intro p' info' hp' hfi' hty2 hid'
            obtain rfl : p = p' := by simpa using hp'
            rw [hfi] at hfi'
            obtain rfl : info = info' := by simpa using hfi'
            rw [handle_packet_accepted fb fi data src own m now p info hfb hty hfi hid]
            exact ⟨rfl, rfl⟩
          · intro p' info' hp' hfi' hid'
            obtain rfl : p = p' := by simpa using hp'
            rw [hfi] at hfi'
            obtain rfl : info = info' := by simpa using hfi'
            exact absurd hid' hid
    · have hty0 : p.is_type "cconnect.identity" = false := by simpa using hty
      refine ⟨?_, ?_, ?_⟩
      · rw [handle_packet_not_identity fb fi data src own m now p hfb hty0]
        simp only [Option.isSome_none, Bool.false_eq_true, false_iff]
        rintro ⟨p', info', hp', htyid, hfi', hid'⟩
        obtain rfl : p = p' := by simpa using hp'
        exact hty ((is_type_identity_iff p).mpr htyid)
      · intro p' info' hp' hfi' htyid hid'
        obtain rfl : p = p' := by simpa using hp'
        exact absurd ((is_type_identity_iff p).mpr htyid) hty
      · intro p' info' hp' hfi' hid'
        rw [handle_packet_not_identity fb fi data src own m now p hfb hty0]
        exact ⟨rfl, rfl⟩

/-- Witness for C5: a fresh `kdeconnect.identity` from another device is
recorded and emits `DeviceDiscovered`; our own identity is dropped. -/
theorem c5_discovery_handle_packet_witness :
    (DiscoveryService.handle_packet
        (fun _ => .ok ⟨"kdeconnect.identity", []⟩)
        (fun _ => .ok ⟨"peer", "Peer", "laptop", 7, 1716⟩)
        [] ("192.168.0.7", 1816) "me" [] 100).2.1 = assocInsert "peer" 100 [] ∧
    (DiscoveryService.handle_packet
        (fun _ => .ok ⟨"kdeconnect.identity", []⟩)
        (fun _ => .ok ⟨"peer", "Peer", "laptop", 7, 1716⟩)
        [] ("192.168.0.7", 1816) "me" [] 100).2.2 =
      some (.DeviceDiscovered ⟨"peer", "Peer", "laptop", 7, 1716⟩ ("192.168.0.7", 1716)) ∧
    (DiscoveryService.handle_packet
        (fun _ => .ok ⟨"cconnect.identity", []⟩)
        (fun _ => .ok ⟨"me", "Me", "desktop", 7, 1716⟩)
        [] ("192.168.0.7", 1816) "me" [] 100).2.2 = none := by
  have h1 := (c5_discovery_handle_packet
      (fun _ => .ok ⟨"kdeconnect.identity", []⟩)
      (fun _ => .ok ⟨"peer", "Peer", "laptop", 7, 1716⟩)
      [] ("192.168.0.7", 1816) "me" [] 100).2.1
      ⟨"kdeconnect.identity", []⟩ ⟨"peer", "Peer", "laptop", 7, 1716⟩
      rfl rfl (Or.inl rfl) (by decide)
  have h2 := (c5_discovery_handle_packet
      (fun _ => .ok ⟨"cconnect.identity", []⟩)
      (fun _ => .ok ⟨"me", "Me", "desktop", 7, 1716⟩)
      [] ("192.168.0.7", 1816) "me" [] 100).2.2
      ⟨"cconnect.identity", []⟩ ⟨"me", "Me", "desktop", 7, 1716⟩
      rfl rfl rfl
  exact ⟨h1.1, by simpa using h1.2, h2.2⟩

theorem sub_u64_of_le (now t : Nat) (h1 : t ≤ now) (h2 : now < 2 ^ 64) :
    sub_u64 now t = now - t := by
  unfold sub_u64
  have hpow : (2 : Nat) ^ 64 = 18446744073709551616 := by norm_num
  rw [hpow] at h2 ⊢
  omega

theorem count_deviceTimeout_map (l : List String) (d : String) :
    ((l.map (fun id => DiscoveryEvent.DeviceTimeout id)).count (.DeviceTimeout d)) =
      l.count d := by
  induction l with
  | nil => rfl
  | cons a tl ih =>
    by_cases h : a = d <;> simp_all [List.count_cons]

theorem count_keys_filter_of_not_containsKey (q : String × Nat → Bool) (d : String)
    (m : List (String × Nat)) (h : containsKey d m = false) :
    (((m.filter q).map (fun kv => kv.1)).count d) = 0 := by
  induction m with
  | nil => rfl
  | cons kv tl ih =>
    simp only [containsKey, Bool.or_eq_false_iff] at h
    have h1 : ¬ kv.1 = d := by simpa using h.1
    by_cases hq : q kv = true <;>
      simp_all [List.filter_cons, List.count_cons]

theorem not_mem_map_fst_of_containsKey_eq_false {β : Type} (k : String)
    (m : List (String × β)) (h : containsKey k m = false) : k ∉ m.map Prod.fst := by
  induction m with
  | nil => simp
  | cons kv tl ih =>
    simp only [containsKey, Bool.or_eq_false_iff] at h
    have h1 : ¬ kv.1 = k := by simpa using h.1
    simp only [List.map_cons, List.mem_cons]
    rintro (h2 | h2)
    · exact h1 h2.symm
    · exact ih h.2 h2

theorem containsKey_eq_false_of_not_mem_map_fst {β : Type} (k : String)
    (m : List (String × β)) (h : k ∉ m.map Prod.fst) : containsKey k m = false := by
  induction m with
  | nil => rfl
  | cons kv tl ih =>
    simp only [List.map_cons, List.mem_cons, not_or] at h
    have h1 : (kv.1 == k) = false := by simpa using fun hh => h.1 hh.symm
    simp [containsKey, h1, ih h.2]

theorem count_keys_filter_nodup (q : String × Nat → Bool) (d : String) (t : Nat)
    (m : List (String × Nat)) (hnd : (m.map Prod.fst).Nodup)
    (hget : assocGet d m = some t) :
    (((m.filter q).map (fun kv => kv.1)).count d) = if q (d, t) then 1 else 0 := by
  induction m with
  | nil => simp [assocGet] at hget
  | cons kv tl ih =>
    rw [List.map_cons, List.nodup_cons] at hnd
    obtain ⟨hnin, hnd'⟩ := hnd
    by_cases h : kv.1 = d
    · obtain ⟨k1, v⟩ := kv
      simp only at h
      subst h
      simp only [assocGet, if_pos rfl] at hget
      obtain rfl : t = v := by simpa using hget.symm
      have hnotin : containsKey k1 tl = false :=
        containsKey_eq_false_of_not_mem_map_fst k1 tl hnin
      have hz := count_keys_filter_of_not_containsKey q k1 tl hnotin
      rw [List.filter_cons]
      by_cases hq : q (k1, t) = true
      · simp [hq, List.count_cons, hz]
      · have hq' : q (k1, t) = false := by simpa using hq
        simp [hq', hz]
    · simp only [assocGet, if_neg h] at hget
      rw [List.filter_cons]
      by_cases hq : q kv = true
      · simp [hq, List.count_cons, h, ih hnd' hget]
      · have hq' : q kv = false := by simpa using hq
        simp [hq', ih hnd' hget]

theorem assocGet_foldl_assocRemove (d : String) (l : List String)
    (m : List (String × Nat)) :
    assocGet d (l.foldl (fun acc id => assocRemove id acc) m) =
      if d ∈ l then none else assocGet d m := by
  induction l generalizing m with
  | nil => simp
  | cons a tl ih =>
    rw [List.foldl_cons, ih, assocGet_assocRemove]
    by_cases h1 : d ∈ tl
    · simp [h1]
    · by_cases h2 : a = d
      · simp [h1, h2]
      · have h3 : ¬ d = a := fun hh => h2 hh.symm
        simp [List.mem_cons, h1, h2, h3]

/-- C6: on a tick of the timeout checker, a tracked device emits
`DeviceTimeout` exactly once iff `now - last_seen > device_timeout`
(otherwise not at all), its `last_seen` entry is removed in the same step,
and — having been removed — it can emit no further `DeviceTimeout` on any
later tick unless it is seen again. -/
theorem c6_device_timeout_once (m : List (String × Nat)) (now tmo : Nat)
    (d : String) (t : Nat)
    (hnd : (m.map Prod.fst).Nodup) (hget : assocGet d m = some t)
    (h1 : t ≤ now) (h2 : now < 2 ^ 64) :
    ((check_device_timeouts m now tmo).2.count (.DeviceTimeout d) =
      if now - t > tmo then 1 else 0) ∧
    (assocGet d (check_device_timeouts m now tmo).1 =
      if now - t > tmo then none else some t) ∧
    (now - t > tmo → ∀ now' tmo',
      (check_device_timeouts (check_device_timeouts m now tmo).1 now' tmo').2.count
        (.DeviceTimeout d) = 0) := by
  have hsub : sub_u64 now t = now - t := sub_u64_of_le now t h1 h2
  have hcount :
      ((check_device_timeouts m now tmo).2.count (.DeviceTimeout d) =
        if now - t > tmo then 1 else 0) := by
    unfold check_device_timeouts
    rw [count_deviceTimeout_map,
      count_keys_filter_nodup (fun kv => decide (tmo < sub_u64 now kv.2)) d t m hnd hget]
    simp [hsub]
  have hmem :
      (d ∈ (m.filter (fun kv => decide (tmo < sub_u64 now kv.2))).map (fun kv => kv.1)) ↔
        tmo < now - t := by
    rw [← List.count_pos_iff,
      count_keys_filter_nodup (fun kv => decide (tmo < sub_u64 now kv.2)) d t m hnd hget]
    by_cases hc : tmo < now - t <;> simp [hsub, hc]
  have hnew :
      assocGet d (check_device_timeouts m now tmo).1 =
        if now - t > tmo then none else some t := by
    unfold check_device_timeouts
    rw [assocGet_foldl_assocRemove]
    by_cases hc : tmo < now - t
    · simp [hmem.mpr hc, hc, hget]
    · have : ¬ (d ∈ (m.filter (fun kv => decide (tmo < sub_u64 now kv.2))).map
          (fun kv => kv.1)) := fun hm => hc (hmem.mp hm)
      simp [this, hc, hget]
  refine ⟨hcount, hnew, ?_⟩
  intro hgt now' tmo'
  have hnone : assocGet d (check_device_timeouts m now tmo).1 = none := by
    rw [hnew]
    simp [hgt]
  have hnok : containsKey d (check_device_timeouts m now tmo).1 = false := by
    rw [containsKey_eq_isSome_assocGet, hnone]
    rfl
  unfold check_device_timeouts
  rw [count_deviceTimeout_map]
  exact count_keys_filter_of_not_containsKey _ d _ hnok

/-- Witness for C6: one device last seen at 100 with timeout 30 emits
exactly one `DeviceTimeout` at time 200 and is gone from the map. -/
theorem c6_device_timeout_once_witness :
    (check_device_timeouts [("phone", 100)] 200 30).2.count (.DeviceTimeout "phone") = 1 ∧
    assocGet "phone" (check_device_timeouts [("phone", 100)] 200 30).1 = none ∧
    (check_device_timeouts (check_device_timeouts [("phone", 100)] 200 30).1 205 30).2.count
      (.DeviceTimeout "phone") = 0 := by
  have h := c6_device_timeout_once [("phone", 100)] 200 30 "phone" 100
    (by decide) (by decide) (by decide) (by norm_num)
  refine ⟨?_, ?_, h.2.2 (by norm_num) 205 30⟩
  · have := h.1
    norm_num at this
    exact this
  · have := h.2.1
    norm_num at this
    exact this

/-- C9: trust-store reload is tolerant — over any directory listing,
`load_paired_devices` never fails on a per-file problem: it skips
unreadable files, unparseable PEM, and non-`CERTIFICATE` tags, skips the
own-identity files `device_cert.pem` / `device_key.pem`, and records a
`paired_devices` entry keyed by file stem for exactly the remaining `.pem`
files containing a `CERTIFICATE` block. -/
theorem c9_trust_store_reload_tolerant (h : PairingHandler) (entries : List DirEntry) :
    ∃ h', PairingHandler.load_paired_devices h (entries.map Except.ok) = .ok h' ∧
      h'.status = h.status ∧ h'.cert_dir = h.cert_dir ∧
      ∀ d, containsKey d h'.paired_devices =
        (containsKey d h.paired_devices || entries.any (fun e => entryLoads e d)) := by
  induction entries generalizing h with
  | nil => exact ⟨h, rfl, rfl, rfl, fun d => by simp⟩
  | cons e rest ih =>
    obtain ⟨est, eext, err⟩ := e
    by_cases hext : eext = some "pem"
    · subst hext
      cases est with
      | none =>
        obtain ⟨h', hr, hs, hc, hm⟩ := ih h
        refine ⟨h', ?_, hs, hc, fun d => ?_⟩
        · simpa [PairingHandler.load_paired_devices, loadPairedLoop] using hr
        · simp [entryLoads, hm d]
      | some id =>
        by_cases hown : (id == "device_cert" || id == "device_key") = true
        · obtain ⟨h', hr, hs, hc, hm⟩ := ih h
          refine ⟨h', ?_, hs, hc, fun d => ?_⟩
          · simpa [PairingHandler.load_paired_devices, loadPairedLoop, hown] using hr
          · by_cases hd : id = d
            · subst hd
              rw [hm id]
              simp [entryLoads, hown]
            · have h2 : (some id == some d) = false := by simp [hd]
              simp [entryLoads, h2, hm d]
        · have hown' : (id == "device_cert" || id == "device_key") = false := by
            simpa using hown
          cases err with
          | error e0 =>
            obtain ⟨h', hr, hs, hc, hm⟩ := ih h
            refine ⟨h', ?_, hs, hc, fun d => ?_⟩
            · simpa [PairingHandler.load_paired_devices, loadPairedLoop, hown'] using hr
            · simp [entryLoads, hm d]
          | ok data =>
            cases data with
            | rawFile bs =>
              obtain ⟨h', hr, hs, hc, hm⟩ := ih h
              refine ⟨h', ?_, hs, hc, fun d => ?_⟩
              · simpa [PairingHandler.load_paired_devices, loadPairedLoop, hown',
                  pemParse] using hr
              · simp [entryLoads, hm d]
            | pemFile tag c =>
              by_cases htag : tag = "CERTIFICATE"
              · subst htag
                obtain ⟨h', hr, hs, hc, hm⟩ :=
                  ih { h with paired_devices := assocInsert id c h.paired_devices }
                refine ⟨h', ?_, hs, hc, fun d => ?_⟩
                · simpa [PairingHandler.load_paired_devices, loadPairedLoop, hown',
                    pemParse] using hr
                · rw [hm d]
                  simp only [containsKey_assocInsert]
                  by_cases hd : id = d
                  · subst hd
                    simp [entryLoads, hown']
                  · have h2 : (some id == some d) = false := by simp [hd]
                    have h3 : (id == d) = false := by simp [hd]
                    simp [entryLoads, h2, h3]
              · have htag' : (tag == "CERTIFICATE") = false := by simpa using htag
                obtain ⟨h', hr, hs, hc, hm⟩ := ih h
                refine ⟨h', ?_, hs, hc, fun d => ?_⟩
                · simpa [PairingHandler.load_paired_devices, loadPairedLoop, hown',
                    pemParse, htag'] using hr
                · simp [entryLoads, htag', hm d]
    · have hext' : (eext == some "pem") = false := by simpa using hext
      obtain ⟨h', hr, hs, hc, hm⟩ := ih h
      refine ⟨h', ?_, hs, hc, fun d => ?_⟩
      · simpa [PairingHandler.load_paired_devices, loadPairedLoop, hext'] using hr
      · simp [entryLoads, hext', hm d]

end CosmicConnect
